import Mathlib

/-
Verification of the session lifecycle and registration flow of the
sanic-security repository, as a shallow embedding in Lean 4.

The repository contains two generations of the library:
  * src/asyncauth/core/models.py          (Session, crosscheck_code,
    Session.ErrorFactory.get, SessionFactory.get)
  * src/sanic_security/authentication.py  (register, logout) together with
    src/sanic_security/core/utils.py      (hash_pw)

Python objects become Lean structures; a method that mutates `self` and
calls `save(update_fields=[...])` becomes a pure function returning the
new record together with the list of persisted fields; raised exceptions
become explicit error values.  Time is modelled as an integer number of
seconds passed in explicitly (`datetime.datetime.now()` becomes the `now`
argument).
-/

/-- Error kinds raised by `Session` methods in src/asyncauth/core/models.py.
Each constructor mirrors one nested exception class of `Session` /
`BaseModel`. -/
inductive SessionError where
  | NotFoundError
  | DeletedError
  | MaximumAttemptsError
  | InvalidError
  | CrosscheckError
  | ExpiredError
deriving DecidableEq

/-- Persisted state of `Session` (src/asyncauth/core/models.py, class
`Session`): nullable owning account, expiration timestamp, `valid` latch,
issuing ip, bounded `attempts` counter, optional one-time `code`, and the
`deleted` soft-delete flag inherited from `BaseModel`.  The factory always
sets `expiration_date`, so it is modelled as a plain integer timestamp. -/
structure Session where
  account : Option Nat
  expiration_date : Int
  valid : Bool
  ip : String
  attempts : Nat
  code : Option String
  deleted : Bool
deriving DecidableEq

/-- Result of one `crosscheck_code` call: the error raised (if any), the
in-memory session afterwards, and the `update_fields` list passed to
`save` (empty when `save` was not called). -/
structure CrosscheckOutcome where
  error : Option SessionError
  session : Session
  update_fields : List String
deriving DecidableEq

/-- Shallow embedding of `Session.crosscheck_code` (models.py lines
173-187): if `attempts >= 5` raise `MaximumAttemptsError`; else if the
stored code differs from the presented code, increment `attempts`,
persist `attempts`, raise `CrosscheckError`; else set `valid = False` and
persist `valid`.  The stored `code` column is nullable, so the Python
comparison `self.code != code` is `s.code ≠ some code`. -/
def Session.crosscheck_code (s : Session) (code : String) : CrosscheckOutcome :=
  if 5 ≤ s.attempts then
    { error := some SessionError.MaximumAttemptsError, session := s, update_fields := [] }
  else if s.code ≠ some code then
    { error := some SessionError.CrosscheckError,
      session := { s with attempts := s.attempts + 1 },
      update_fields := ["attempts"] }
  else
    { error := none, session := { s with valid := false }, update_fields := ["valid"] }

/-- Shallow embedding of `Session.ErrorFactory.get` (models.py lines
240-251): `None` model gives `NotFoundError`, then `not model.valid`
gives `InvalidError`, then `model.deleted` gives `DeletedError`, then a
passed `expiration_date` gives `ExpiredError`; otherwise no error.  The
current wall-clock time is the explicit `now` argument. -/
def Session.ErrorFactory.get (model : Option Session) (now : Int) : Option SessionError :=
  match model with
  | none => some SessionError.NotFoundError
  | some m =>
    if m.valid = false then some SessionError.InvalidError
    else if m.deleted = true then some SessionError.DeletedError
    else if m.expiration_date < now then some SessionError.ExpiredError
    else none

/-- Python slice `code[:6]` on a string: the first `n` characters. -/
def stringTake (s : String) (n : Nat) : String :=
  { data := s.data.take n }

/-- Shallow embedding of `SessionFactory.generate_expiration_date`
(models.py lines 294-304): `utcnow + timedelta(days=days, minutes=minutes)`
in seconds.  In the source the parameters default to `days = 1` and
`minutes = 0`; call sites below pass the values Python resolves after
applying those defaults. -/
def SessionFactory.generate_expiration_date (now : Int) (days : Int) (minutes : Int) : Int :=
  now + days * 86400 + minutes * 60

/-- Shallow embedding of `SessionFactory.get` (models.py lines 319-345).
The pooled code returned by `get_cached_session_code()` and the ip
resolved by `get_ip(request)` are explicit arguments.  The captcha branch
calls `generate_expiration_date(minutes=1)`, which leaves `days` at its
default of 1; the captcha branch passes no account, the verification and
authentication branches bind the resolved account.  An unknown session
type (a `ValueError` in the source) is `none`. -/
def SessionFactory.get (session_type : String) (pooled_code : String) (ip : String)
    (now : Int) (account : Option Nat) : Option Session :=
  if session_type = "captcha" then
    some { account := none,
           expiration_date := SessionFactory.generate_expiration_date now 1 1,
           valid := true, ip := ip, attempts := 0,
           code := some (stringTake pooled_code 6), deleted := false }
  else if session_type = "verification" then
    some { account := account,
           expiration_date := SessionFactory.generate_expiration_date now 1 1,
           valid := true, ip := ip, attempts := 0,
           code := some pooled_code, deleted := false }
  else if session_type = "authentication" then
    some { account := account,
           expiration_date := SessionFactory.generate_expiration_date now 30 0,
           valid := true, ip := ip, attempts := 0,
           code := none, deleted := false }
  else none

/-- Sample session used to instantiate hypotheses of the crosscheck and
validation theorems on concrete inputs. -/
def sampleSession : Session :=
  { account := none, expiration_date := 100, valid := true, ip := "1.2.3.4",
    attempts := 0, code := some "482913", deleted := false }

/-- C1: once `attempts` has reached 5, `crosscheck_code` raises
`MaximumAttemptsError` and never `CrosscheckError`, and its outcome does
not depend on the presented code at all, so a 6th call fails even when
the presented code equals the stored code. -/
theorem crosscheck_max_attempts_fails_closed (s : Session) (c : String)
    (h : 5 ≤ s.attempts) :
    (s.crosscheck_code c).error = some SessionError.MaximumAttemptsError
    ∧ (s.crosscheck_code c).error ≠ some SessionError.CrosscheckError
    ∧ ∀ c2 : String, s.crosscheck_code c = s.crosscheck_code c2 := by
  refine ⟨?_, ?_, ?_⟩ <;> simp [Session.crosscheck_code, h]

/-- Witness for C1: a session holding code "482913" with `attempts = 5`
rejects even the correct code "482913" with `MaximumAttemptsError`. -/
theorem crosscheck_max_attempts_fails_closed_witness :
    (Session.crosscheck_code { sampleSession with attempts := 5 } "482913").error
      = some SessionError.MaximumAttemptsError
    ∧ ({ sampleSession with attempts := 5 } : Session).code = some "482913" :=
  ⟨(crosscheck_max_attempts_fails_closed { sampleSession with attempts := 5 }
      "482913" (by decide)).1, rfl⟩

/-- C2: with `attempts < 5` and a wrong presented code, `crosscheck_code`
raises `CrosscheckError`, increments `attempts` by exactly one, persists
only the `attempts` field, and leaves the `valid` flag unchanged. -/
theorem crosscheck_wrong_code_increments (s : Session) (c : String)
    (h1 : s.attempts < 5) (h2 : s.code ≠ some c) :
    (s.crosscheck_code c).error = some SessionError.CrosscheckError
    ∧ (s.crosscheck_code c).session.attempts = s.attempts + 1
    ∧ (s.crosscheck_code c).update_fields = ["attempts"]
    ∧ (s.crosscheck_code c).session.valid = s.valid := by
  have h3 : ¬ 5 ≤ s.attempts := by omega
  refine ⟨?_, ?_, ?_, ?_⟩ <;> simp [Session.crosscheck_code, h3, h2]

/-- Witness for C2: crosschecking "000000" against a fresh session whose
code is "482913" raises `CrosscheckError`, bumps `attempts` from 0 to 1,
saves only `attempts`, and keeps `valid = true`. -/
theorem crosscheck_wrong_code_increments_witness :
    (sampleSession.crosscheck_code "000000").error = some SessionError.CrosscheckError
    ∧ (sampleSession.crosscheck_code "000000").session.attempts = sampleSession.attempts + 1
    ∧ (sampleSession.crosscheck_code "000000").update_fields = ["attempts"]
    ∧ (sampleSession.crosscheck_code "000000").session.valid = sampleSession.valid :=
  crosscheck_wrong_code_increments sampleSession "000000" (by decide) (by decide)

/-- Counterexample to C3: a session that is both soft-deleted and has
`valid = false` fails validation with `InvalidError`, not with
`DeletedError` as the claim states, because the source checks
`not model.valid` before `model.deleted`. -/
theorem validation_order_counterexample :
    Session.ErrorFactory.get
        (some { account := none, expiration_date := 1000, valid := false,
                ip := "1.2.3.4", attempts := 0, code := none, deleted := true }) 0
      = some SessionError.InvalidError
    ∧ SessionError.InvalidError ≠ SessionError.DeletedError := by
  decide

/-- C3 (amended): `Session.ErrorFactory.get` checks existence, then
explicit invalidity (`valid = false`), then soft-deletion, then expiry,
and returns the distinct error kind of the first condition that holds
(and no error when none holds). -/
theorem validation_check_order (s : Session) (now : Int) :
    (Session.ErrorFactory.get none now = some SessionError.NotFoundError)
    ∧ (s.valid = false →
        Session.ErrorFactory.get (some s) now = some SessionError.InvalidError)
    ∧ (s.valid = true → s.deleted = true →
        Session.ErrorFactory.get (some s) now = some SessionError.DeletedError)
    ∧ (s.valid = true → s.deleted = false → s.expiration_date < now →
        Session.ErrorFactory.get (some s) now = some SessionError.ExpiredError)
    ∧ (s.valid = true → s.deleted = false → ¬ s.expiration_date < now →
        Session.ErrorFactory.get (some s) now = none) := by
  refine ⟨rfl, ?_, ?_, ?_, ?_⟩ <;> intros <;>
    simp_all [Session.ErrorFactory.get]

/-- Witness for C3 (amended): concrete sessions hitting the invalidity,
deletion and expiry branches in the order the source checks them. -/
theorem validation_check_order_witness :
    Session.ErrorFactory.get (some { sampleSession with valid := false, deleted := true }) 0
      = some SessionError.InvalidError
    ∧ Session.ErrorFactory.get (some { sampleSession with deleted := true }) 0
      = some SessionError.DeletedError
    ∧ Session.ErrorFactory.get (some { sampleSession with expiration_date := -1 }) 0
      = some SessionError.ExpiredError :=
  ⟨(validation_check_order { sampleSession with valid := false, deleted := true } 0).2.1 rfl,
   (validation_check_order { sampleSession with deleted := true } 0).2.2.1 rfl rfl,
   (validation_check_order { sampleSession with expiration_date := -1 } 0).2.2.2.1 rfl rfl
     (by decide)⟩

/-- C4: a non-deleted session whose expiration date has passed while
`valid` is still true fails validation with `ExpiredError` and never with
`InvalidError`; the check is a pure read-time comparison against `now`. -/
theorem expired_valid_session_fails_expired (s : Session) (now : Int)
    (h1 : s.valid = true) (h2 : s.deleted = false) (h3 : s.expiration_date < now) :
    Session.ErrorFactory.get (some s) now = some SessionError.ExpiredError
    ∧ Session.ErrorFactory.get (some s) now ≠ some SessionError.InvalidError := by
  constructor <;> simp [Session.ErrorFactory.get, h1, h2, h3]

/-- Witness for C4: a still-valid, non-deleted session that expired at
time -1 fails at time 0 with `ExpiredError`, not `InvalidError`. -/
theorem expired_valid_session_fails_expired_witness :
    Session.ErrorFactory.get (some { sampleSession with expiration_date := -1 }) 0
      = some SessionError.ExpiredError
    ∧ Session.ErrorFactory.get (some { sampleSession with expiration_date := -1 }) 0
      ≠ some SessionError.InvalidError :=
  expired_valid_session_fails_expired { sampleSession with expiration_date := -1 } 0
    rfl rfl (by decide)

/-- C8: evaluating the captcha branch of `SessionFactory.get` at creation
time 0 with pooled code "ABCDEFGH" and ip "1.2.3.4".  The session binds
no account, records the caller ip and the pooled code truncated to 6
characters, but its expiration date is 86460 seconds (1 day + 1 minute)
after creation because `generate_expiration_date(minutes=1)` keeps the
default `days = 1` — not the 1 minute (60 seconds) the claim states. -/
theorem captcha_factory_policy :
    SessionFactory.get "captcha" "ABCDEFGH" "1.2.3.4" 0 none
      = some { account := none, expiration_date := 86460, valid := true,
               ip := "1.2.3.4", attempts := 0, code := some "ABCDEF", deleted := false }
    ∧ (86460 : Int) ≠ 0 + 60 := by
  decide

/-
Second generation of the library: src/sanic_security/authentication.py and
src/sanic_security/core/utils.py.  The companion module
sanic_security/models.py is not under src/, so the Account record and
the uniqueness behaviour of `Account.create` are modelled from the spec.
-/

/-- Modelled from the spec: `sanic_security.models.Account` is not under
src/; per spec section 3 an account carries username, unique email,
unique optional phone, password hash, `disabled` and `verified` flags
(the src/asyncauth generation declares the same unique columns). -/
structure Account where
  email : String
  username : String
  password : String
  phone : Option String
  verified : Bool
  disabled : Bool
deriving DecidableEq

/-- Form data submitted to `register`: email, username, password, and an
optional phone field. -/
structure RegistrationForm where
  email : String
  username : String
  phone : Option String
  password : String
deriving DecidableEq

/-- Error raised by `register` (sanic_security/exceptions.py is not under
src/; the construction sites in authentication.py pass a message and an
HTTP status code). -/
structure CredentialsError where
  message : String
  code : Nat
deriving DecidableEq

/-- Character class `[a-zA-Z0-9_.+-]` of the email regex local part. -/
def localChar (c : Char) : Bool :=
  c.isAlpha || c.isDigit || c == '_' || c == '.' || c == '+' || c == '-'

/-- Character class `[a-zA-Z0-9-]` of the email regex domain part. -/
def domainChar (c : Char) : Bool :=
  c.isAlpha || c.isDigit || c == '-'

/-- Character class `[a-zA-Z0-9-.]` of the email regex final part. -/
def tldChar (c : Char) : Bool :=
  c.isAlpha || c.isDigit || c == '-' || c == '.'

/-- Matcher for the anchored email regex of `register`
(`^[a-zA-Z0-9_.+-]+@[a-zA-Z0-9-]+\.[a-zA-Z0-9-.]+$`).  Neither class
contains `@`, and the domain class contains no dot, so a match
decomposes uniquely: a nonempty local-part run, the first `@`, a
nonempty domain run, the next character a dot, and a nonempty tail in
the final class. -/
def matchEmail (s : String) : Bool :=
  let cs := s.data
  let l := cs.takeWhile localChar
  match cs.dropWhile localChar with
  | '@' :: rest =>
    let d := rest.takeWhile domainChar
    (match rest.dropWhile domainChar with
     | '.' :: t => !l.isEmpty && !d.isEmpty && !t.isEmpty && t.all tldChar
     | _ => false)
  | _ => false

/-- Matcher for the username regex `^[A-Za-z0-9_-]{3,32}$`. -/
def matchUsername (s : String) : Bool :=
  decide (3 ≤ s.length) && decide (s.length ≤ 32)
    && s.data.all (fun c => c.isAlpha || c.isDigit || c == '_' || c == '-')

/-- Matcher for the phone regex `^[0-9]{11,14}$`. -/
def matchPhone (s : String) : Bool :=
  decide (11 ≤ s.length) && decide (s.length ≤ 14) && s.data.all Char.isDigit

/-- Guard `request.form.get("phone") and not re.search(...)` of
`register`: a missing or empty phone field is falsy and skips the
check. -/
def phoneInvalid (phone : Option String) : Bool :=
  match phone with
  | none => false
  | some p => (!(p == "")) && (!matchPhone p)

/-- Python `str.lower()` as a character-wise map.  The email reaching it
in `register` has already matched the ASCII-only email regex, on which
Python lowercasing is exactly per-character ASCII lowercasing. -/
def strLower (s : String) : String :=
  { data := s.data.map Char.toLower }

/-- Sum view of `Except`, used to decide equality of `register`
results. -/
def exceptToSum : Except ε α → ε ⊕ α
  | Except.error e => Sum.inl e
  | Except.ok a => Sum.inr a

instance {ε α : Type} [DecidableEq ε] [DecidableEq α] : DecidableEq (Except ε α) :=
  fun a b =>
    decidable_of_iff (exceptToSum a = exceptToSum b)
      (by cases a <;> cases b <;> simp [exceptToSum])

/-- Account row built by the `Account.create` call inside `register`
(authentication.py lines 120-127): the email lowercased, the username
and phone verbatim, the password run through the configured hasher. -/
def newAccount (hasher : String → String) (form : RegistrationForm)
    (verified disabled : Bool) : Account :=
  { email := strLower form.email, username := form.username,
    password := hasher form.password, phone := form.phone,
    verified := verified, disabled := disabled }

/-- Predicate deciding whether an existing row collides with the new row
on a unique column (email always, phone when the new row has one). -/
def dupPred (a : Account) (b : Account) : Bool :=
  b.email == a.email || (a.phone.isSome && b.phone == a.phone)

/-- Modelled from the spec: `Account.create` hits the store's unique
email/phone columns (spec sections 3 and 6); it raises IntegrityError —
here `Except.error ()` — when a stored row collides, and otherwise
appends the new row, leaving the store unchanged on failure. -/
def Account.create (db : List Account) (a : Account) :
    Except Unit (Account × List Account) :=
  if db.any (dupPred a) = true then Except.error ()
  else Except.ok (a, db ++ [a])

/-- Shallow embedding of `register` (authentication.py lines 81-133).
Validation runs in source order: email regex, username regex, phone
regex, then the password guard written `if 100 > len(password) > 8`,
which in Python chains to `len < 100 and len > 8`.  Only then is
`Account.create` called; an IntegrityError becomes the generic
409 duplicate-credentials error.  The result is the raised error or the
created account, paired with the resulting account store. -/
def register (hasher : String → String) (db : List Account)
    (form : RegistrationForm) (verified disabled : Bool) :
    Except CredentialsError Account × List Account :=
  if matchEmail form.email = false then
    (Except.error { message := "Please use a valid email such as you@mail.com.", code := 400 }, db)
  else if matchUsername form.username = false then
    (Except.error { message := "Username must be between 3-32 characters and not contain any special characters other than _ or -.", code := 400 }, db)
  else if phoneInvalid form.phone = true then
    (Except.error { message := "Please use a valid phone format such as 15621435489 or 19498963648018.", code := 400 }, db)
  else if form.password.length < 100 ∧ 8 < form.password.length then
    (Except.error { message := "Password must be more than 8 characters and must be less than 100 characters.", code := 400 }, db)
  else
    match Account.create db (newAccount hasher form verified disabled) with
    | Except.error _ =>
      (Except.error { message := "An account with these credentials may already exist.", code := 409 }, db)
    | Except.ok (a, db1) => (Except.ok a, db1)

/-- Authentication session of the second generation.  Modelled from the
spec: sanic_security/models.py is not under src/; per spec sections 3 and
4.4 it extends the session record with a `two_factor` flag and an
`active` flag distinct from `valid`. -/
structure AuthenticationSession where
  account : Option Nat
  expiration_date : Int
  valid : Bool
  ip : String
  attempts : Nat
  code : Option String
  deleted : Bool
  two_factor : Bool
  active : Bool
deriving DecidableEq

/-- Shallow embedding of `logout` (authentication.py lines 235-243): set
`active = False` and call `save(update_fields=["active"])`.  Returns the
updated record and the list of persisted fields. -/
def logout (s : AuthenticationSession) : AuthenticationSession × List String :=
  ({ s with active := false }, ["active"])

/-- Shallow embedding of `hash_pw` (src/sanic_security/core/utils.py
lines 34-49): `hashlib.pbkdf2_hmac("sha512", password, secret, 100000)`
where the salt is the process-wide configured secret.  The PBKDF2
primitive is a pure function passed explicitly, and the digest is a list
of bytes. -/
def hash_pw (pbkdf2_hmac : String → String → String → Nat → List Nat)
    (secret : String) (password : String) : List Nat :=
  pbkdf2_hmac "sha512" password secret 100000

/-- Identity password hasher used to instantiate the register theorems on
concrete inputs. -/
def idHash : String → String := fun p => p

/-- Sample registration form with a mixed-case email. -/
def regFormA : RegistrationForm :=
  { email := "User@Mail.com", username := "user_1", phone := none, password := "pass" }

/-- Second sample form whose email differs from `regFormA` only in
letter case. -/
def regFormB : RegistrationForm :=
  { email := "uSER@mail.COM", username := "user_2", phone := none, password := "word" }

/-- Account row `register idHash [] regFormA false false` creates. -/
def accountA : Account :=
  { email := "user@mail.com", username := "user_1", password := "pass",
    phone := none, verified := false, disabled := false }

/-- Account row `register idHash [] regFormB false false` creates. -/
def accountB : Account :=
  { email := "user@mail.com", username := "user_2", password := "word",
    phone := none, verified := false, disabled := false }

/-- Inversion on a successful `register` call: all validation guards
passed, the created account is `newAccount`, and the store grew by
exactly that record. -/
lemma register_ok_cases {hasher : String → String} {db : List Account}
    {form : RegistrationForm} {v d : Bool} {acc : Account} {db2 : List Account}
    (h : register hasher db form v d = (Except.ok acc, db2)) :
    matchEmail form.email = true ∧ matchUsername form.username = true
      ∧ phoneInvalid form.phone = false
      ∧ ¬(form.password.length < 100 ∧ 8 < form.password.length)
      ∧ acc = newAccount hasher form v d ∧ db2 = db ++ [acc] := by
  by_cases e : matchEmail form.email = false
  · simp [register, e] at h
  · by_cases u : matchUsername form.username = false
    · simp [register, e, u] at h
    · by_cases p : phoneInvalid form.phone = true
      · simp [register, e, u, p] at h
      · by_cases w : form.password.length < 100 ∧ 8 < form.password.length
        · simp [register, e, u, p, w] at h
        · unfold register at h
          rw [if_neg e, if_neg u, if_neg p, if_neg w] at h
          cases hc : Account.create db (newAccount hasher form v d) with
          | error err => rw [hc] at h; simp at h
          | ok pr =>
            obtain ⟨a, db1⟩ := pr
            rw [hc] at h
            simp only [Prod.mk.injEq, Except.ok.injEq] at h
            obtain ⟨ha, hdb⟩ := h
            unfold Account.create at hc
            split at hc
            · simp at hc
            · simp only [Except.ok.injEq, Prod.mk.injEq] at hc
              obtain ⟨ha2, hdb2⟩ := hc
              refine ⟨?_, ?_, ?_, w, ?_, ?_⟩
              · simpa using e
              · simpa using u
              · simpa using p
              · rw [← ha, ← ha2]
              · rw [← hdb, ← hdb2, ← ha, ← ha2]

/-- When every validation guard passes but the store already holds a row
whose email equals the lowercased submitted email, `register` fails with
the generic 409 duplicate-credentials error and leaves the store
unchanged. -/
lemma register_dup_of_mem {hasher : String → String} {db : List Account}
    {form : RegistrationForm} {v d : Bool}
    (e : matchEmail form.email = true) (u : matchUsername form.username = true)
    (p : phoneInvalid form.phone = false)
    (w : ¬(form.password.length < 100 ∧ 8 < form.password.length))
    (b : Account) (hb : b ∈ db) (he : b.email = strLower form.email) :
    register hasher db form v d
      = (Except.error { message := "An account with these credentials may already exist.", code := 409 }, db) := by
  have hcreate : Account.create db (newAccount hasher form v d) = Except.error () := by
    unfold Account.create
    rw [if_pos (List.any_eq_true.mpr ⟨b, hb, by simp [dupPred, newAccount, he]⟩)]
  simp [register, e, u, p, w, hcreate]

/-- C6: after a successful `register` call stored an account, calling
`register` again with the same form (under any hasher and flags) fails
with the single generic duplicate-credentials error, message
"An account with these credentials may already exist." and status 409,
and the account store is unchanged by the failed call. -/
theorem register_duplicate_generic (hasher hasher2 : String → String)
    (db : List Account) (form : RegistrationForm) (v d v2 d2 : Bool)
    (acc : Account) (db2 : List Account)
    (h : register hasher db form v d = (Except.ok acc, db2)) :
    register hasher2 db2 form v2 d2
      = (Except.error { message := "An account with these credentials may already exist.", code := 409 }, db2) := by
  obtain ⟨e, u, p, w, hacc, hdb2⟩ := register_ok_cases h
  subst hdb2
  exact register_dup_of_mem e u p w acc (by simp) (by simp [hacc, newAccount])

/-- Witness for C6: registering `regFormA` over the store that the first
`register` call produced yields the generic 409 duplicate error and
leaves the store at exactly one account. -/
theorem register_duplicate_generic_witness :
    register idHash [accountA] regFormA false false
      = (Except.error { message := "An account with these credentials may already exist.", code := 409 }, [accountA]) :=
  register_duplicate_generic idHash idHash [] regFormA false false false false
    accountA [accountA] (by decide)

/-- C5: evaluation of `register` exhibits the inverted password-length
guard.  The 9-character password "abcdefghi" — inside the documented
8-to-100 bounds — is rejected with the password-length error, while the
3-character password "abc" — outside the bounds — is accepted and an
account is created. -/
theorem register_password_guard_inverted :
    (register (fun p => p) []
        { email := "user@mail.com", username := "user_1", phone := none, password := "abcdefghi" }
        false false).1
      = Except.error { message := "Password must be more than 8 characters and must be less than 100 characters.", code := 400 }
    ∧ (register (fun p => p) []
        { email := "user@mail.com", username := "user_1", phone := none, password := "abc" }
        false false).1
      = Except.ok { email := "user@mail.com", username := "user_1", password := "abc",
                    phone := none, verified := false, disabled := false } := by
  constructor <;> decide

/-- C10: a successful `register` stores the lowercased email and the
verbatim username and phone, and a second otherwise-valid registration
whose email differs only in letter case fails on the email uniqueness
constraint with the generic 409 duplicate error. -/
theorem register_email_casefold (hasher hasher2 : String → String)
    (db : List Account) (form form2 : RegistrationForm) (v d v2 d2 : Bool)
    (acc : Account) (db2 : List Account)
    (h : register hasher db form v d = (Except.ok acc, db2))
    (h2 : ∃ acc2 db3, register hasher2 [] form2 v2 d2 = (Except.ok acc2, db3))
    (h3 : strLower form2.email = strLower form.email) :
    acc.email = strLower form.email ∧ acc.username = form.username
      ∧ acc.phone = form.phone
      ∧ register hasher2 db2 form2 v2 d2
        = (Except.error { message := "An account with these credentials may already exist.", code := 409 }, db2) := by
  obtain ⟨e, u, p, w, hacc, hdb2⟩ := register_ok_cases h
  obtain ⟨acc2, db3, hreg2⟩ := h2
  obtain ⟨e2, u2, p2, w2, _, _⟩ := register_ok_cases hreg2
  subst hdb2
  refine ⟨by simp [hacc, newAccount], by simp [hacc, newAccount],
    by simp [hacc, newAccount], ?_⟩
  exact register_dup_of_mem e2 u2 p2 w2 acc (by simp)
    (by simp [hacc, newAccount, h3])

/-- Witness for C10: registering `regFormB` (email "uSER@mail.COM") over
the store produced by registering `regFormA` (email "User@Mail.com")
fails with the 409 duplicate error, the stored account carrying the
lowercased email and the verbatim username and phone. -/
theorem register_email_casefold_witness :
    accountA.email = strLower regFormA.email
    ∧ accountA.username = regFormA.username
    ∧ accountA.phone = regFormA.phone
    ∧ register idHash [accountA] regFormB false false
      = (Except.error { message := "An account with these credentials may already exist.", code := 409 }, [accountA]) :=
  register_email_casefold idHash idHash [] regFormA regFormB false false false false
    accountA [accountA] (by decide) ⟨accountB, [accountB], by decide⟩ (by decide)

/-- C7: `logout` sets the `active` flag to false, persists exactly the
`active` field, and leaves the `valid` flag and every other field of the
authentication session unchanged. -/
theorem logout_only_deactivates (s : AuthenticationSession) :
    (logout s).1.active = false
    ∧ (logout s).2 = ["active"]
    ∧ (logout s).1.valid = s.valid
    ∧ (logout s).1.account = s.account
    ∧ (logout s).1.expiration_date = s.expiration_date
    ∧ (logout s).1.ip = s.ip
    ∧ (logout s).1.attempts = s.attempts
    ∧ (logout s).1.code = s.code
    ∧ (logout s).1.deleted = s.deleted
    ∧ (logout s).1.two_factor = s.two_factor :=
  ⟨rfl, rfl, rfl, rfl, rfl, rfl, rfl, rfl, rfl, rfl⟩

/-- C9: `hash_pw` is deterministic under a fixed configured secret —
the PBKDF2 primitive is a pure function and the only salt is the
process-wide secret, so equal passwords always produce byte-for-byte
equal hashes (two accounts sharing a password share a stored hash). -/
theorem hash_pw_deterministic (f : String → String → String → Nat → List Nat)
    (secret p1 p2 : String) (h : p1 = p2) :
    hash_pw f secret p1 = hash_pw f secret p2 := by
  rw [h]

/-- Witness for C9: two invocations on the concrete password "hunter2"
under the secret "SECRET" agree. -/
theorem hash_pw_deterministic_witness :
    hash_pw (fun _ p _ _ => [p.length]) "SECRET" "hunter2"
      = hash_pw (fun _ p _ _ => [p.length]) "SECRET" "hunter2" :=
  hash_pw_deterministic (fun _ p _ _ => [p.length]) "SECRET" "hunter2" "hunter2" rfl
